import Mathlib

/-!
Shallow embedding of `src/profiler/telemeh.c` (MoarVM telemetry recorder):
a fixed-capacity ring buffer of telemetry records, lock-free slot allocation
via CAS on a shared write cursor, an event API gated by a process-wide active
flag, TSC calibration against a monotonic wall clock, and a drain loop that
serializes the unconsumed region of the buffer (wraparound-aware) to text.

Sequential operations are embedded as explicit state-passing functions on a
`TelemetryState`; the concurrent CAS allocation loop is embedded separately as
a trace semantics over adversarially interleaved CAS attempts; hardware clock
reads are supplied by an oracle.  C `double` arithmetic in the calibration is
idealized as exact rational arithmetic; unsigned 64-bit subtraction is
modelled exactly (mod 2^64).
-/

namespace Telemeh

/-- Record kinds, mirroring `enum RecordType`. The first constructor has C
enum value 0, which is what a zero-initialized record holds. -/
inductive RecordType
  | Calibration
  | Epoch
  | TimeStamp
  | IntervalStart
  | IntervalEnd
  | IntervalAnnotation
  deriving DecidableEq, Repr

/-- One slot of the ring buffer, mirroring `struct TelemetryRecord`.  The C
union is flattened into separate fields: `ticksPerSecond` for the calibration
payload, `time` for the epoch/timeStamp/interval cycle counts, `intervalID`
and `description` for the interval and annotation payloads.  The serializer
only ever reads the fields belonging to `recordType`, and every API operation
writes every field it later causes to be read, so the flattening is
observationally faithful to the union. -/
structure TelemetryRecord where
  recordType : RecordType
  threadID : Int
  ticksPerSecond : ℚ
  time : Nat
  intervalID : Nat
  description : String
  deriving DecidableEq, Repr

/-- The C macro RECORD_BUFFER_SIZE, fixed at 10000. -/
def RECORD_BUFFER_SIZE : Nat := 10000

/-- Modulus of C `unsigned long long` arithmetic, 2^64. -/
def two64 : Nat := 2 ^ 64

/-- C `unsigned long long` subtraction `a - b` (wraps modulo 2^64). -/
def sub64 (a b : Nat) : Nat := (((a : Int) - (b : Int)) % (two64 : Int)).toNat

/-- The process-wide mutable globals of telemeh.c, gathered into one state. -/
structure TelemetryState where
  recordBuffer : Nat → TelemetryRecord
  recordBufferIndex : Nat
  lastSerializedIndex : Nat
  beginningEpoch : Nat
  telemetry_active : Bool
  intervalIDCounter : Nat

/-- A record with all bytes zero: what every slot of the static
`recordBuffer` array holds before any write (a NULL description pointer is
modelled as the empty string). -/
def zeroRecord : TelemetryRecord :=
  { recordType := RecordType.Calibration
    threadID := 0
    ticksPerSecond := 0
    time := 0
    intervalID := 0
    description := "" }

/-- The initial values of the globals: zero-initialized buffer, both cursors
0, epoch 0, `telemetry_active = 0`, `intervalIDCounter = 0`. -/
def initialState : TelemetryState :=
  { recordBuffer := fun _ => zeroRecord
    recordBufferIndex := 0
    lastSerializedIndex := 0
    beginningEpoch := 0
    telemetry_active := false
    intervalIDCounter := 0 }

/-- Sequential semantics of `newRecord`: the CAS loop run without interference
returns the current cursor value as the granted slot index and advances the
cursor to `(index + 1) % RECORD_BUFFER_SIZE`. -/
def newRecord (s : TelemetryState) : Nat × TelemetryState :=
  let recordIndex := s.recordBufferIndex
  let newBufferIndex := (s.recordBufferIndex + 1) % RECORD_BUFFER_SIZE
  (recordIndex, { s with recordBufferIndex := newBufferIndex })

/-- Store record `r` into buffer slot `i`. -/
def writeRecord (s : TelemetryState) (i : Nat) (r : TelemetryRecord) : TelemetryState :=
  { s with recordBuffer := Function.update s.recordBuffer i r }

/-- The C function `takeTimeStamp(threadID, description)`; the TSC value read by `READ_TSC`
is supplied as the oracle argument `tsc`. -/
def takeTimeStamp (tsc : Nat) (threadID : Int) (description : String)
    (s : TelemetryState) : TelemetryState :=
  if !s.telemetry_active then s else
    let p := newRecord s
    let record := p.2.recordBuffer p.1
    writeRecord p.2 p.1
      { record with
          time := tsc
          recordType := RecordType.TimeStamp
          threadID := threadID
          description := description }

/-- The C function `startInterval(threadID, description)`: returns the drawn interval id
together with the new state.  When inactive it returns 0 and leaves the state
untouched.  `__atomic_fetch_add` returns the old counter value. -/
def startInterval (tsc : Nat) (threadID : Int) (description : String)
    (s : TelemetryState) : Nat × TelemetryState :=
  if !s.telemetry_active then (0, s) else
    let p := newRecord s
    let intervalID := p.2.intervalIDCounter
    let s2 := { p.2 with intervalIDCounter := p.2.intervalIDCounter + 1 }
    let record := s2.recordBuffer p.1
    (intervalID,
      writeRecord s2 p.1
        { record with
            time := tsc
            recordType := RecordType.IntervalStart
            threadID := threadID
            intervalID := intervalID
            description := description })

/-- The C function `stopInterval(threadID, intervalID, description)`. -/
def stopInterval (tsc : Nat) (threadID : Int) (intervalID : Nat)
    (description : String) (s : TelemetryState) : TelemetryState :=
  if !s.telemetry_active then s else
    let p := newRecord s
    let record := p.2.recordBuffer p.1
    writeRecord p.2 p.1
      { record with
          time := tsc
          recordType := RecordType.IntervalEnd
          threadID := threadID
          intervalID := intervalID
          description := description }

/-- The C function `annotateInterval(subject, intervalID, description)`: no TSC read, no
time stored. -/
def annotateInterval (subject : Int) (intervalID : Nat) (description : String)
    (s : TelemetryState) : TelemetryState :=
  if !s.telemetry_active then s else
    let p := newRecord s
    let record := p.2.recordBuffer p.1
    writeRecord p.2 p.1
      { record with
          recordType := RecordType.IntervalAnnotation
          threadID := subject
          intervalID := intervalID
          description := description }

/-! ### Sequential allocation runs (for C2) -/

/-- State after `k` sequential `newRecord` calls. -/
def allocStateAfter (s : TelemetryState) : Nat → TelemetryState
  | 0 => s
  | k + 1 => (newRecord (allocStateAfter s k)).2

/-- Index returned by the `k`-th (0-based) `newRecord` call in a sequential
run starting from `s`. -/
def nthAllocIndex (s : TelemetryState) (k : Nat) : Nat :=
  (newRecord (allocStateAfter s k)).1

/-! ### Concurrent allocation as a CAS-attempt trace (for C3)

The CAS loop of `newRecord` is embedded as a trace semantics: each element of
`attempts` is one `__atomic_compare_exchange_n` attempt by some thread,
carrying the cursor value that thread last read (possibly stale under
interleaving).  An attempt succeeds exactly when its expected value equals the
current cursor; the winner is granted that index and the cursor advances; a
loser changes nothing and merely re-reads and retries later (a later element
of the trace).  This covers every interleaving of any number of threads. -/

/-- Granted slot indices, in order of CAS success, over a trace of attempts. -/
def runAllocAttempts (cursor : Nat) : List Nat → List Nat
  | [] => []
  | expected :: rest =>
    if expected = cursor then
      cursor :: runAllocAttempts ((cursor + 1) % RECORD_BUFFER_SIZE) rest
    else
      runAllocAttempts cursor rest

/-! ### Sequences of event API calls (for C5) -/

/-- One call to the event API, with its TSC oracle value where the C code
performs a `READ_TSC`. -/
inductive ApiCall
  | timeStampCall (tsc : Nat) (threadID : Int) (description : String)
  | startIntervalCall (tsc : Nat) (threadID : Int) (description : String)
  | stopIntervalCall (tsc : Nat) (threadID : Int) (intervalID : Nat) (description : String)
  | annotateIntervalCall (subject : Int) (intervalID : Nat) (description : String)

/-- The interval identifiers returned by the `startInterval` calls of a call
sequence, in call order. -/
def startIntervalIds (s : TelemetryState) : List ApiCall → List Nat
  | [] => []
  | ApiCall.timeStampCall tsc tid d :: cs =>
      startIntervalIds (takeTimeStamp tsc tid d s) cs
  | ApiCall.startIntervalCall tsc tid d :: cs =>
      (startInterval tsc tid d s).1 :: startIntervalIds (startInterval tsc tid d s).2 cs
  | ApiCall.stopIntervalCall tsc tid iid d :: cs =>
      startIntervalIds (stopInterval tsc tid iid d s) cs
  | ApiCall.annotateIntervalCall tid iid d :: cs =>
      startIntervalIds (annotateInterval tid iid d s) cs

/-! ### Serialization (drain) -/

/-- One field of a rendered output line, in the order the `fprintf` calls of
`serializeTelemetryBufferRange` emit them. -/
inductive LineField
  | threadID (t : Int)
  | calibrationFactor (q : ℚ)
  | epochCounter (t : Nat)
  | time (t : Nat)
  | blankTime
  | marker (s : String)
  | text (s : String)
  | intervalID (n : Nat)
  deriving DecidableEq, Repr

/-- The line rendered for one record: the producer thread id field
(`"% 10x "`), then the kind-dependent fields of the matching `case` of the
switch.  Cycle counts of TimeStamp/IntervalStart/IntervalEnd records are
printed relative to `beginningEpoch` (unsigned 64-bit subtraction); Epoch
records print their raw counter; IntervalAnnotation lines print a blank
time field (`"%15s"` of `" "`). -/
def renderRecord (beginningEpoch : Nat) (record : TelemetryRecord) : List LineField :=
  LineField.threadID record.threadID ::
    match record.recordType with
    | RecordType.Calibration =>
        [LineField.marker ("Calibration:"), LineField.calibrationFactor record.ticksPerSecond]
    | RecordType.Epoch =>
        [LineField.marker ("Epoch counter:"), LineField.epochCounter record.time]
    | RecordType.TimeStamp =>
        [LineField.time (sub64 record.time beginningEpoch),
         LineField.marker ("-|- Time stamp:"), LineField.text record.description]
    | RecordType.IntervalStart =>
        [LineField.time (sub64 record.time beginningEpoch),
         LineField.marker ("(-  Interval start:"), LineField.text record.description,
         LineField.intervalID record.intervalID]
    | RecordType.IntervalEnd =>
        [LineField.time (sub64 record.time beginningEpoch),
         LineField.marker (" -) Interval stop:"), LineField.text record.description,
         LineField.intervalID record.intervalID]
    | RecordType.IntervalAnnotation =>
        [LineField.blankTime, LineField.marker ("??? Annotation:"),
         LineField.text record.description, LineField.intervalID record.intervalID]

/-- The C function `serializeTelemetryBufferRange(outfile, serializationStart,
serializationEnd)`: the C `for (i = start; i < end; i++)` loop, rendering
slot `i` each iteration. -/
def serializeTelemetryBufferRange (beginningEpoch : Nat) (buf : Nat → TelemetryRecord)
    (i serializationEnd : Nat) : List (List LineField) :=
  if h : i < serializationEnd then
    renderRecord beginningEpoch (buf i)
      :: serializeTelemetryBufferRange beginningEpoch buf (i + 1) serializationEnd
  else []
termination_by serializationEnd - i
decreasing_by omega

/-- The C function `serializeTelemetryBuffer(outfile)`: one drain pass.  Snapshots the write
cursor as `serializationEnd`, reads the drain cursor as `serializationStart`,
renders the wrapped region as two ranges when `end < start`, then sets the
drain cursor to the snapshot. -/
def serializeTelemetryBuffer (s : TelemetryState) : List (List LineField) × TelemetryState :=
  let serializationEnd := s.recordBufferIndex
  let serializationStart := s.lastSerializedIndex
  let out :=
    if serializationEnd < serializationStart then
      serializeTelemetryBufferRange s.beginningEpoch s.recordBuffer
          serializationStart RECORD_BUFFER_SIZE
        ++ serializeTelemetryBufferRange s.beginningEpoch s.recordBuffer 0 serializationEnd
    else
      serializeTelemetryBufferRange s.beginningEpoch s.recordBuffer
        serializationStart serializationEnd
  (out, { s with lastSerializedIndex := serializationEnd })

/-! ### Clock calibration -/

/-- The C `struct timespec`. -/
structure Timespec where
  tv_sec : Int
  tv_nsec : Int
  deriving DecidableEq, Repr

/-- The ambient clocks, sampled at integer instants: `tsc t` is the value
`READ_TSC` yields at instant `t`, `monotonic t` the `CLOCK_MONOTONIC`
reading.  `calibrateTSC` samples instant 0 before its `sleep(1)` and
instant 1 after it. -/
structure ClockOracle where
  tsc : Nat → Nat
  monotonic : Nat → Timespec

/-- The observable clock effects of `calibrateTSC`, in program order. -/
inductive ClockAction
  | clockGettimeMonotonic
  | readTsc
  | sleepSeconds (n : Nat)
  deriving DecidableEq, Repr

/-- Observable clock effects of `calibrateTSC`, in program order: `clock_gettime(CLOCK_MONOTONIC)`, `READ_TSC`,
`sleep(1)`, `clock_gettime(CLOCK_MONOTONIC)`, `READ_TSC`. -/
def calibrateTSCActions : List ClockAction :=
  [ClockAction.clockGettimeMonotonic, ClockAction.readTsc,
   ClockAction.sleepSeconds 1,
   ClockAction.clockGettimeMonotonic, ClockAction.readTsc]

/-- The value `calibrateTSC` stores in the global `ticksPerSecond`:
`ticks = endTsc - startTsc` (unsigned 64-bit), `wallClockTime =
(endTime.tv_sec - startTime.tv_sec) * 1000000000 + (endTime.tv_nsec -
startTime.tv_nsec)` (signed, then converted to unsigned 64-bit), and
`ticksPerSecond = (double)ticks / (double)wallClockTime * 1000000000.0`
(`double` idealized as ℚ).  No validation, no error path: total. -/
def calibrateTSC (o : ClockOracle) : ℚ :=
  let startTime := o.monotonic 0
  let startTsc := o.tsc 0
  let endTime := o.monotonic 1
  let endTsc := o.tsc 1
  let ticks : Nat := sub64 endTsc startTsc
  let wallClockTime : Nat :=
    (((endTime.tv_sec - startTime.tv_sec) * 1000000000
        + (endTime.tv_nsec - startTime.tv_nsec)) % (two64 : Int)).toNat
  ((ticks : ℚ) / (wallClockTime : ℚ)) * 1000000000

/-- The C function `initTelemetry(outfile)`: sets the active flag, calibrates, fills a
calibration record (writing only its `ticksPerSecond` payload and
`recordType`), fills an epoch record (writing only its `time` payload — the
TSC reading `epochTsc` — and `recordType`), and latches `beginningEpoch`.
Neither record's `threadID` is assigned.  The `pthread_create` of the drain
thread has no effect on this state. -/
def initTelemetry (o : ClockOracle) (epochTsc : Nat) (s : TelemetryState) : TelemetryState :=
  let s0 := { s with telemetry_active := true }
  let tps := calibrateTSC o
  let p1 := newRecord s0
  let r1 := p1.2.recordBuffer p1.1
  let s2 := writeRecord p1.2 p1.1
    { r1 with ticksPerSecond := tps, recordType := RecordType.Calibration }
  let p2 := newRecord s2
  let r2 := p2.2.recordBuffer p2.1
  let s4 := writeRecord p2.2 p2.1
    { r2 with time := epochTsc, recordType := RecordType.Epoch }
  { s4 with beginningEpoch := epochTsc }

/-- A concrete clock oracle for witnesses: a 3 GHz TSC and a wall clock
advancing exactly one second per instant. -/
def demoOracle : ClockOracle :=
  { tsc := fun t => 3000000000 * t
    monotonic := fun t => { tv_sec := (t : Int), tv_nsec := 0 } }

/-! ## Theorems -/

theorem sub64_eq_sub (a b : Nat) (hba : b ≤ a) (h : a - b < two64) :
    sub64 a b = a - b := by
  unfold sub64
  have h0 : (0 : Int) ≤ (a : Int) - (b : Int) := by omega
  have h1 : (a : Int) - (b : Int) < (two64 : Int) := by omega
  rw [Int.emod_eq_of_lt h0 h1]
  omega

/-- C4: when the process-wide active flag is false, every event API call is a
true no-op: the state (buffer contents, write cursor, interval-id counter) is
returned unchanged, and `startInterval` returns the sentinel 0. -/
theorem eventAPI_noop_when_inactive (s : TelemetryState)
    (h : s.telemetry_active = false)
    (tsc : Nat) (tid : Int) (iid : Nat) (d : String) :
    takeTimeStamp tsc tid d s = s ∧
    startInterval tsc tid d s = (0, s) ∧
    stopInterval tsc tid iid d s = s ∧
    annotateInterval tid iid d s = s := by
  refine ⟨?_, ?_, ?_, ?_⟩ <;>
    simp [takeTimeStamp, startInterval, stopInterval, annotateInterval, h]

/-- Witness for C4 at the initial state (whose active flag is false). -/
theorem eventAPI_noop_when_inactive_witness :
    initialState.telemetry_active = false ∧
    (takeTimeStamp 42 7 "x" initialState = initialState ∧
     startInterval 42 7 "x" initialState = (0, initialState) ∧
     stopInterval 42 7 3 "x" initialState = initialState ∧
     annotateInterval 7 3 "x" initialState = initialState) :=
  ⟨rfl, eventAPI_noop_when_inactive initialState rfl 42 7 3 "x"⟩

/-- C9: the sentinel returned by `startInterval` while inactive is 0, and the
identifier granted to the first `startInterval` call made from the initial
state once the flag is turned on is also 0 (the counter starts at 0): the two
are indistinguishable to a caller. -/
theorem startInterval_sentinel_equals_first_id :
    (∀ tsc tid d, (startInterval tsc tid d initialState).1 = 0) ∧
    (∀ tsc tid d,
      (startInterval tsc tid d
        { initialState with telemetry_active := true }).1 = 0) := by
  constructor <;> intro tsc tid d <;> rfl

theorem allocStateAfter_cursor (s : TelemetryState)
    (h : s.recordBufferIndex < RECORD_BUFFER_SIZE) (k : Nat) :
    (allocStateAfter s k).recordBufferIndex
      = (s.recordBufferIndex + k) % RECORD_BUFFER_SIZE := by
  induction k with
  | zero => simpa [allocStateAfter] using (Nat.mod_eq_of_lt h).symm
  | succ k ih =>
      simp only [allocStateAfter, newRecord, ih, RECORD_BUFFER_SIZE] at *
      omega

/-- C2: every slot allocation returns the current write-cursor value and
advances the cursor to `(i + 1) % RECORD_BUFFER_SIZE`; consequently the
`(k + RECORD_BUFFER_SIZE)`-th allocation of a sequential run returns the same
index as the `k`-th (silent slot reuse). -/
theorem newRecord_returns_cursor_and_wraps (s : TelemetryState)
    (h : s.recordBufferIndex < RECORD_BUFFER_SIZE) (k : Nat) :
    (newRecord s).1 = s.recordBufferIndex ∧
    (newRecord s).2.recordBufferIndex = ((newRecord s).1 + 1) % RECORD_BUFFER_SIZE ∧
    nthAllocIndex s k = (s.recordBufferIndex + k) % RECORD_BUFFER_SIZE ∧
    nthAllocIndex s (k + RECORD_BUFFER_SIZE) = nthAllocIndex s k := by
  have hk := allocStateAfter_cursor s h k
  have hk' := allocStateAfter_cursor s h (k + RECORD_BUFFER_SIZE)
  refine ⟨rfl, rfl, ?_, ?_⟩
  · simpa [nthAllocIndex, newRecord] using hk
  · simp only [nthAllocIndex, newRecord, hk, hk', RECORD_BUFFER_SIZE] at *
    omega

/-- Witness for C2 at the initial state with `k = 5`. -/
theorem newRecord_returns_cursor_and_wraps_witness :
    initialState.recordBufferIndex < RECORD_BUFFER_SIZE ∧
    ((newRecord initialState).1 = initialState.recordBufferIndex ∧
     (newRecord initialState).2.recordBufferIndex
       = ((newRecord initialState).1 + 1) % RECORD_BUFFER_SIZE ∧
     nthAllocIndex initialState 5
       = (initialState.recordBufferIndex + 5) % RECORD_BUFFER_SIZE ∧
     nthAllocIndex initialState (5 + RECORD_BUFFER_SIZE) = nthAllocIndex initialState 5) :=
  ⟨by decide, newRecord_returns_cursor_and_wraps initialState (by decide) 5⟩

theorem runAllocAttempts_getElem (attempts : List Nat) :
    ∀ (cursor : Nat), cursor < RECORD_BUFFER_SIZE →
    ∀ (j : Nat), j < (runAllocAttempts cursor attempts).length →
      (runAllocAttempts cursor attempts)[j]?
        = some ((cursor + j) % RECORD_BUFFER_SIZE) := by
  induction attempts with
  | nil => intro cursor hc j hj; simp [runAllocAttempts] at hj
  | cons e rest ih =>
      intro cursor hc j hj
      by_cases he : e = cursor
      · subst he
        simp only [runAllocAttempts, eq_self_iff_true, if_true] at hj ⊢
        cases j with
        | zero => simp [Nat.mod_eq_of_lt hc]
        | succ j =>
            rw [List.getElem?_cons_succ]
            have hj2 : j < (runAllocAttempts ((e + 1) % RECORD_BUFFER_SIZE) rest).length :=
              Nat.lt_of_succ_lt_succ (by simpa using hj)
            rw [ih ((e + 1) % RECORD_BUFFER_SIZE)
              (Nat.mod_lt _ (by simp [RECORD_BUFFER_SIZE])) j hj2]
            congr 1
            simp only [RECORD_BUFFER_SIZE]
            omega
      · simp only [runAllocAttempts, if_neg he] at hj ⊢
        exact ih cursor hc j hj

/-- C3: over every trace of interleaved CAS attempts from any number of
threads, (a) an attempt whose expected value is the current cursor always
succeeds (no call ever blocks or fails: some thread can always complete), and
(b) two grants fewer than `RECORD_BUFFER_SIZE` grant-positions apart receive
distinct slot indices — no index is handed out twice before it is reused. -/
theorem concurrent_alloc_unique_and_nonblocking (cursor : Nat)
    (hc : cursor < RECORD_BUFFER_SIZE) (attempts : List Nat) (j j' : Nat)
    (hjj : j < j') (hjw : j' < j + RECORD_BUFFER_SIZE)
    (hj' : j' < (runAllocAttempts cursor attempts).length) :
    (∀ c, runAllocAttempts c [c] = [c]) ∧
    (runAllocAttempts cursor attempts).get ⟨j, lt_trans hjj hj'⟩
      ≠ (runAllocAttempts cursor attempts).get ⟨j', hj'⟩ := by
  refine ⟨fun c => by simp [runAllocAttempts], ?_⟩
  have h1 := runAllocAttempts_getElem attempts cursor hc j (lt_trans hjj hj')
  have h2 := runAllocAttempts_getElem attempts cursor hc j' hj'
  rw [List.getElem?_eq_getElem (lt_trans hjj hj')] at h1
  rw [List.getElem?_eq_getElem hj'] at h2
  have e1 : (runAllocAttempts cursor attempts).get ⟨j, lt_trans hjj hj'⟩
      = (cursor + j) % RECORD_BUFFER_SIZE := by
    rw [List.get_eq_getElem]; exact Option.some.inj h1
  have e2 : (runAllocAttempts cursor attempts).get ⟨j', hj'⟩
      = (cursor + j') % RECORD_BUFFER_SIZE := by
    rw [List.get_eq_getElem]; exact Option.some.inj h2
  rw [e1, e2]
  simp only [RECORD_BUFFER_SIZE] at *
  omega

/-- Witness for C3: cursor 0, a trace with one stale (failing) attempt. -/
theorem concurrent_alloc_unique_and_nonblocking_witness :
    0 < RECORD_BUFFER_SIZE ∧ 0 < 1 ∧ 1 < 0 + RECORD_BUFFER_SIZE ∧
    1 < (runAllocAttempts 0 [0, 7, 1]).length ∧
    ((∀ c, runAllocAttempts c [c] = [c]) ∧
     (runAllocAttempts 0 [0, 7, 1]).get ⟨0, by decide⟩
       ≠ (runAllocAttempts 0 [0, 7, 1]).get ⟨1, by decide⟩) :=
  ⟨by decide, by decide, by decide, by decide,
    concurrent_alloc_unique_and_nonblocking 0 (by decide) [0, 7, 1] 0 1
      (by decide) (by decide) (by decide)⟩

theorem takeTimeStamp_active (tsc : Nat) (tid : Int) (d : String) (s : TelemetryState) :
    (takeTimeStamp tsc tid d s).telemetry_active = s.telemetry_active := by
  cases hA : s.telemetry_active <;> simp [takeTimeStamp, writeRecord, newRecord, hA]

theorem takeTimeStamp_counter (tsc : Nat) (tid : Int) (d : String) (s : TelemetryState) :
    (takeTimeStamp tsc tid d s).intervalIDCounter = s.intervalIDCounter := by
  cases hA : s.telemetry_active <;> simp [takeTimeStamp, writeRecord, newRecord, hA]

theorem stopInterval_active (tsc : Nat) (tid : Int) (iid : Nat) (d : String)
    (s : TelemetryState) :
    (stopInterval tsc tid iid d s).telemetry_active = s.telemetry_active := by
  cases hA : s.telemetry_active <;> simp [stopInterval, writeRecord, newRecord, hA]

theorem stopInterval_counter (tsc : Nat) (tid : Int) (iid : Nat) (d : String)
    (s : TelemetryState) :
    (stopInterval tsc tid iid d s).intervalIDCounter = s.intervalIDCounter := by
  cases hA : s.telemetry_active <;> simp [stopInterval, writeRecord, newRecord, hA]

theorem annotateInterval_active (tid : Int) (iid : Nat) (d : String) (s : TelemetryState) :
    (annotateInterval tid iid d s).telemetry_active = s.telemetry_active := by
  cases hA : s.telemetry_active <;> simp [annotateInterval, writeRecord, newRecord, hA]

theorem annotateInterval_counter (tid : Int) (iid : Nat) (d : String) (s : TelemetryState) :
    (annotateInterval tid iid d s).intervalIDCounter = s.intervalIDCounter := by
  cases hA : s.telemetry_active <;> simp [annotateInterval, writeRecord, newRecord, hA]

theorem startInterval_snd_active (tsc : Nat) (tid : Int) (d : String) (s : TelemetryState) :
    (startInterval tsc tid d s).2.telemetry_active = s.telemetry_active := by
  cases hA : s.telemetry_active <;> simp [startInterval, writeRecord, newRecord, hA]

theorem startInterval_fst (tsc : Nat) (tid : Int) (d : String) (s : TelemetryState)
    (h : s.telemetry_active = true) :
    (startInterval tsc tid d s).1 = s.intervalIDCounter := by
  simp [startInterval, writeRecord, newRecord, h]

theorem startInterval_snd_counter (tsc : Nat) (tid : Int) (d : String)
    (s : TelemetryState) (h : s.telemetry_active = true) :
    (startInterval tsc tid d s).2.intervalIDCounter = s.intervalIDCounter + 1 := by
  simp [startInterval, writeRecord, newRecord, h]

theorem startIntervalIds_lower_bound (cs : List ApiCall) :
    ∀ (s : TelemetryState), s.telemetry_active = true →
    ∀ x ∈ startIntervalIds s cs, s.intervalIDCounter ≤ x := by
  induction cs with
  | nil => intro s h x hx; simp [startIntervalIds] at hx
  | cons c cs ih =>
      intro s h x hx
      cases c with
      | timeStampCall tsc tid d =>
          have := ih (takeTimeStamp tsc tid d s)
            (by rw [takeTimeStamp_active]; exact h) x hx
          rwa [takeTimeStamp_counter] at this
      | stopIntervalCall tsc tid iid d =>
          have := ih (stopInterval tsc tid iid d s)
            (by rw [stopInterval_active]; exact h) x hx
          rwa [stopInterval_counter] at this
      | annotateIntervalCall tid iid d =>
          have := ih (annotateInterval tid iid d s)
            (by rw [annotateInterval_active]; exact h) x hx
          rwa [annotateInterval_counter] at this
      | startIntervalCall tsc tid d =>
          rcases List.mem_cons.mp hx with hx0 | hx'
          · rw [hx0, startInterval_fst tsc tid d s h]
          · have := ih (startInterval tsc tid d s).2
              (by rw [startInterval_snd_active]; exact h) x hx'
            rw [startInterval_snd_counter tsc tid d s h] at this
            omega

/-- C5: over any sequence of event API calls made while the active flag is
true, the interval identifiers returned by the `startInterval` calls are
strictly increasing, hence never repeated (integer overflow out of scope:
the counter is modelled on ℕ). -/
theorem startInterval_ids_strictly_increasing (cs : List ApiCall) :
    ∀ (s : TelemetryState), s.telemetry_active = true →
    (startIntervalIds s cs).Pairwise (· < ·) := by
  induction cs with
  | nil => intro s h; simp [startIntervalIds]
  | cons c cs ih =>
      intro s h
      cases c with
      | timeStampCall tsc tid d =>
          exact ih (takeTimeStamp tsc tid d s) (by rw [takeTimeStamp_active]; exact h)
      | stopIntervalCall tsc tid iid d =>
          exact ih (stopInterval tsc tid iid d s) (by rw [stopInterval_active]; exact h)
      | annotateIntervalCall tid iid d =>
          exact ih (annotateInterval tid iid d s) (by rw [annotateInterval_active]; exact h)
      | startIntervalCall tsc tid d =>
          have hA' : (startInterval tsc tid d s).2.telemetry_active = true := by
            rw [startInterval_snd_active]; exact h
          refine List.Pairwise.cons ?_ (ih (startInterval tsc tid d s).2 hA')
          intro x hx
          have hb := startIntervalIds_lower_bound cs (startInterval tsc tid d s).2 hA' x hx
          rw [startInterval_snd_counter tsc tid d s h] at hb
          rw [startInterval_fst tsc tid d s h]
          omega

/-- Witness for C5: three API calls (two interval starts with a timestamp in
between) from the activated initial state. -/
theorem startInterval_ids_strictly_increasing_witness :
    ({ initialState with telemetry_active := true } : TelemetryState).telemetry_active
        = true ∧
    (startIntervalIds { initialState with telemetry_active := true }
      [ApiCall.startIntervalCall 5 1 "a", ApiCall.timeStampCall 6 1 "t",
       ApiCall.startIntervalCall 7 2 "b"]).Pairwise (· < ·) :=
  ⟨rfl,
    startInterval_ids_strictly_increasing
      [ApiCall.startIntervalCall 5 1 "a", ApiCall.timeStampCall 6 1 "t",
       ApiCall.startIntervalCall 7 2 "b"]
      { initialState with telemetry_active := true } rfl⟩

theorem serializeTelemetryBufferRange_add (ep : Nat) (buf : Nat → TelemetryRecord) :
    ∀ (n i : Nat), serializeTelemetryBufferRange ep buf i (i + n)
      = (List.range' i n).map (fun k => renderRecord ep (buf k)) := by
  intro n
  induction n with
  | zero =>
      intro i
      rw [serializeTelemetryBufferRange]
      simp
  | succ n ih =>
      intro i
      rw [serializeTelemetryBufferRange, dif_pos (by omega : i < i + (n + 1))]
      have h2 : i + (n + 1) = (i + 1) + n := by omega
      rw [h2, ih (i + 1), List.range'_succ]
      simp

theorem serializeTelemetryBufferRange_range (ep : Nat) (buf : Nat → TelemetryRecord)
    (i stop : Nat) :
    serializeTelemetryBufferRange ep buf i stop
      = (List.range' i (stop - i)).map (fun k => renderRecord ep (buf k)) := by
  rcases le_or_lt i stop with h | h
  · obtain ⟨n, rfl⟩ : ∃ n, stop = i + n := ⟨stop - i, by omega⟩
    have hn : i + n - i = n := by omega
    rw [serializeTelemetryBufferRange_add, hn]
  · rw [serializeTelemetryBufferRange, dif_neg (by omega)]
    have h0 : stop - i = 0 := by omega
    simp [h0]

/-- C1: one drain pass snapshots the write cursor as `end` and the drain
cursor as `start`; when `end < start` it renders exactly the slots
`[start, RECORD_BUFFER_SIZE)` followed by `[0, end)`, in that order, and
otherwise exactly `[start, end)`; in both cases it then sets the drain cursor
to `end`. -/
theorem drain_renders_wrap_ranges_in_order (s : TelemetryState) :
    (serializeTelemetryBuffer s).1 =
      ((if s.recordBufferIndex < s.lastSerializedIndex then
          List.range' s.lastSerializedIndex
              (RECORD_BUFFER_SIZE - s.lastSerializedIndex)
            ++ List.range' 0 s.recordBufferIndex
        else
          List.range' s.lastSerializedIndex
            (s.recordBufferIndex - s.lastSerializedIndex)).map
        (fun i => renderRecord s.beginningEpoch (s.recordBuffer i))) ∧
    (serializeTelemetryBuffer s).2.lastSerializedIndex = s.recordBufferIndex := by
  constructor
  · by_cases h : s.recordBufferIndex < s.lastSerializedIndex <;>
      simp [serializeTelemetryBuffer, h, serializeTelemetryBufferRange_range]
  · rfl

/-- C6: `calibrateTSC` samples the TSC and the monotonic clock once before
and once after its `sleep(1)` (see `calibrateTSCActions`), and stores exactly
`cycleDelta / wallNanosDelta * 1e9` (arithmetic idealized over ℚ). -/
theorem calibrateTSC_formula (o : ClockOracle)
    (h1 : o.tsc 0 ≤ o.tsc 1) (h2 : o.tsc 1 - o.tsc 0 < two64)
    (w : Int)
    (hw : w = ((o.monotonic 1).tv_sec - (o.monotonic 0).tv_sec) * 1000000000
        + ((o.monotonic 1).tv_nsec - (o.monotonic 0).tv_nsec))
    (hw0 : 0 < w) (hwlt : w < (two64 : Int)) :
    calibrateTSC o = ((o.tsc 1 - o.tsc 0 : Nat) : ℚ) / (w : ℚ) * 1000000000 ∧
    calibrateTSCActions
      = [ClockAction.clockGettimeMonotonic, ClockAction.readTsc,
         ClockAction.sleepSeconds 1,
         ClockAction.clockGettimeMonotonic, ClockAction.readTsc] := by
  refine ⟨?_, rfl⟩
  simp only [calibrateTSC]
  rw [sub64_eq_sub (o.tsc 1) (o.tsc 0) h1 h2]
  rw [← hw, Int.emod_eq_of_lt (le_of_lt hw0) hwlt]
  have hcast : ((w.toNat : Nat) : ℚ) = (w : ℚ) := by
    have := Int.toNat_of_nonneg (le_of_lt hw0)
    exact_mod_cast congrArg (fun z : Int => (z : ℚ)) this
  rw [hcast]

/-- Witness for C6 at the demo oracle (3 GHz TSC, exact 1-second window). -/
theorem calibrateTSC_formula_witness :
    demoOracle.tsc 0 ≤ demoOracle.tsc 1 ∧
    demoOracle.tsc 1 - demoOracle.tsc 0 < two64 ∧
    (1000000000 : Int)
      = ((demoOracle.monotonic 1).tv_sec - (demoOracle.monotonic 0).tv_sec) * 1000000000
        + ((demoOracle.monotonic 1).tv_nsec - (demoOracle.monotonic 0).tv_nsec) ∧
    (0 : Int) < 1000000000 ∧ ((1000000000 : Int) < (two64 : Int)) ∧
    (calibrateTSC demoOracle
        = ((demoOracle.tsc 1 - demoOracle.tsc 0 : Nat) : ℚ)
            / ((1000000000 : Int) : ℚ) * 1000000000 ∧
     calibrateTSCActions
      = [ClockAction.clockGettimeMonotonic, ClockAction.readTsc,
         ClockAction.sleepSeconds 1,
         ClockAction.clockGettimeMonotonic, ClockAction.readTsc]) :=
  ⟨by decide, by decide, by decide, by decide, by decide,
    calibrateTSC_formula demoOracle (by decide) (by decide) 1000000000
      (by decide) (by decide) (by decide)⟩

/-- C7: `initTelemetry` latches the epoch TSC reading into `beginningEpoch`,
and every rendered TimeStamp/IntervalStart/IntervalEnd line carries, directly
after the thread id field, the record's raw cycle count minus that epoch
baseline. -/
theorem rendered_time_relative_to_epoch (o : ClockOracle) (e : Nat)
    (s : TelemetryState) (epoch : Nat) (r : TelemetryRecord)
    (hk : r.recordType = RecordType.TimeStamp
          ∨ r.recordType = RecordType.IntervalStart
          ∨ r.recordType = RecordType.IntervalEnd)
    (hle : epoch ≤ r.time) (hlt : r.time - epoch < two64) :
    (initTelemetry o e s).beginningEpoch = e ∧
    (renderRecord epoch r)[1]? = some (LineField.time (r.time - epoch)) := by
  refine ⟨rfl, ?_⟩
  rcases hk with h | h | h <;>
    simp [renderRecord, h, sub64_eq_sub r.time epoch hle hlt]

/-- Witness for C7: a TimeStamp record at cycle 130 against epoch 30. -/
theorem rendered_time_relative_to_epoch_witness :
    (({ zeroRecord with recordType := RecordType.TimeStamp, time := 130 }
        : TelemetryRecord).recordType = RecordType.TimeStamp ∨
     ({ zeroRecord with recordType := RecordType.TimeStamp, time := 130 }
        : TelemetryRecord).recordType = RecordType.IntervalStart ∨
     ({ zeroRecord with recordType := RecordType.TimeStamp, time := 130 }
        : TelemetryRecord).recordType = RecordType.IntervalEnd) ∧
    30 ≤ ({ zeroRecord with recordType := RecordType.TimeStamp, time := 130 }
        : TelemetryRecord).time ∧
    ({ zeroRecord with recordType := RecordType.TimeStamp, time := 130 }
        : TelemetryRecord).time - 30 < two64 ∧
    ((initTelemetry demoOracle 77 initialState).beginningEpoch = 77 ∧
     (renderRecord 30 { zeroRecord with recordType := RecordType.TimeStamp, time := 130 })[1]?
       = some (LineField.time
           (({ zeroRecord with recordType := RecordType.TimeStamp, time := 130 }
              : TelemetryRecord).time - 30))) :=
  ⟨Or.inl rfl, by decide, by decide,
    rendered_time_relative_to_epoch demoOracle 77 initialState 30
      { zeroRecord with recordType := RecordType.TimeStamp, time := 130 }
      (Or.inl rfl) (by decide) (by decide)⟩

/-- C8: `annotateInterval` stores no cycle count (the `time` field of every
buffer slot is unchanged), and the rendered line of every IntervalAnnotation
record is: producer thread id, blank time field, annotation marker,
description, interval id, in that order. -/
theorem annotateInterval_no_time_and_line_order (s : TelemetryState)
    (tid : Int) (iid : Nat) (d : String) (ep : Nat) (r : TelemetryRecord)
    (hr : r.recordType = RecordType.IntervalAnnotation) :
    (∀ i, ((annotateInterval tid iid d s).recordBuffer i).time
        = (s.recordBuffer i).time) ∧
    renderRecord ep r
      = [LineField.threadID r.threadID, LineField.blankTime,
         LineField.marker ("??? Annotation:"), LineField.text r.description,
         LineField.intervalID r.intervalID] := by
  constructor
  · intro i
    cases hA : s.telemetry_active
    · simp [annotateInterval, hA]
    · by_cases hi : i = s.recordBufferIndex
      · subst hi
        simp [annotateInterval, writeRecord, newRecord, hA, Function.update_same]
      · simp [annotateInterval, writeRecord, newRecord, hA, Function.update_noteq hi]
  · simp [renderRecord, hr]

/-- Witness for C8: a concrete annotation record and the activated initial
state. -/
theorem annotateInterval_no_time_and_line_order_witness :
    ({ zeroRecord with
        recordType := RecordType.IntervalAnnotation
        threadID := 5
        intervalID := 2
        description := "n" } : TelemetryRecord).recordType
      = RecordType.IntervalAnnotation ∧
    ((∀ i, ((annotateInterval 5 2 "n"
          { initialState with telemetry_active := true }).recordBuffer i).time
        = (({ initialState with telemetry_active := true }
            : TelemetryState).recordBuffer i).time) ∧
     renderRecord 30
        { zeroRecord with
            recordType := RecordType.IntervalAnnotation
            threadID := 5
            intervalID := 2
            description := "n" }
      = [LineField.threadID 5, LineField.blankTime,
         LineField.marker ("??? Annotation:"), LineField.text ("n"),
         LineField.intervalID 2]) :=
  ⟨rfl,
    annotateInterval_no_time_and_line_order
      { initialState with telemetry_active := true } 5 2 "n" 30
      { zeroRecord with
          recordType := RecordType.IntervalAnnotation
          threadID := 5
          intervalID := 2
          description := "n" } rfl⟩

/-- C10: `initTelemetry` writes the calibration record's factor and kind and
the epoch record's cycle count and kind, but assigns neither record's
`threadID`, which keeps whatever value the slot previously held — 0 when the
buffer is freshly zero-initialized — even though the serializer renders a
thread id field for every record kind. -/
theorem initTelemetry_never_writes_threadID (o : ClockOracle) (e : Nat)
    (s : TelemetryState) (h : s.recordBufferIndex < RECORD_BUFFER_SIZE) :
    ((initTelemetry o e s).recordBuffer s.recordBufferIndex).threadID
        = (s.recordBuffer s.recordBufferIndex).threadID ∧
    ((initTelemetry o e s).recordBuffer
          ((s.recordBufferIndex + 1) % RECORD_BUFFER_SIZE)).threadID
        = (s.recordBuffer ((s.recordBufferIndex + 1) % RECORD_BUFFER_SIZE)).threadID ∧
    ((initTelemetry o e s).recordBuffer s.recordBufferIndex).recordType
        = RecordType.Calibration ∧
    ((initTelemetry o e s).recordBuffer s.recordBufferIndex).ticksPerSecond
        = calibrateTSC o ∧
    ((initTelemetry o e s).recordBuffer
          ((s.recordBufferIndex + 1) % RECORD_BUFFER_SIZE)).recordType
        = RecordType.Epoch ∧
    ((initTelemetry o e s).recordBuffer
          ((s.recordBufferIndex + 1) % RECORD_BUFFER_SIZE)).time = e ∧
    (∀ ep r, (renderRecord ep r).head? = some (LineField.threadID r.threadID)) ∧
    ((initTelemetry o e initialState).recordBuffer 0).threadID = 0 ∧
    ((initTelemetry o e initialState).recordBuffer 1).threadID = 0 := by
  have hne : (s.recordBufferIndex + 1) % RECORD_BUFFER_SIZE ≠ s.recordBufferIndex := by
    simp only [RECORD_BUFFER_SIZE] at *
    omega
  refine ⟨?_, ?_, ?_, ?_, ?_, ?_, fun ep r => rfl, rfl, rfl⟩ <;>
    simp [initTelemetry, writeRecord, newRecord, Function.update_noteq hne,
      Function.update_noteq (Ne.symm hne), Function.update_same]

/-- Witness for C10 at the initial state. -/
theorem initTelemetry_never_writes_threadID_witness :
    initialState.recordBufferIndex < RECORD_BUFFER_SIZE ∧
    (((initTelemetry demoOracle 77 initialState).recordBuffer
          initialState.recordBufferIndex).threadID
        = (initialState.recordBuffer initialState.recordBufferIndex).threadID ∧
     ((initTelemetry demoOracle 77 initialState).recordBuffer
          ((initialState.recordBufferIndex + 1) % RECORD_BUFFER_SIZE)).threadID
        = (initialState.recordBuffer
            ((initialState.recordBufferIndex + 1) % RECORD_BUFFER_SIZE)).threadID ∧
     ((initTelemetry demoOracle 77 initialState).recordBuffer
          initialState.recordBufferIndex).recordType = RecordType.Calibration ∧
     ((initTelemetry demoOracle 77 initialState).recordBuffer
          initialState.recordBufferIndex).ticksPerSecond = calibrateTSC demoOracle ∧
     ((initTelemetry demoOracle 77 initialState).recordBuffer
          ((initialState.recordBufferIndex + 1) % RECORD_BUFFER_SIZE)).recordType
        = RecordType.Epoch ∧
     ((initTelemetry demoOracle 77 initialState).recordBuffer
          ((initialState.recordBufferIndex + 1) % RECORD_BUFFER_SIZE)).time = 77 ∧
     (∀ ep r, (renderRecord ep r).head? = some (LineField.threadID r.threadID)) ∧
     ((initTelemetry demoOracle 77 initialState).recordBuffer 0).threadID = 0 ∧
     ((initTelemetry demoOracle 77 initialState).recordBuffer 1).threadID = 0) :=
  ⟨by decide, initTelemetry_never_writes_threadID demoOracle 77 initialState (by decide)⟩

end Telemeh
